import Mathlib

/-!
Shallow embedding of the FastAPI e-commerce catalog backend
(`app/routers/categories.py`, `app/routers/products.py`, `app/routers/reviews.py`,
`app/schemas.py`, `app/models/categories.py`, `app/models/reviews.py`).

The relational store is a record of row lists; SQLAlchemy `select ... where`
becomes `List.filter`, `ORDER BY id` becomes a sort by `id`, `OFFSET`/`LIMIT`
become `List.drop`/`List.take`, `UPDATE ... WHERE id = x` becomes a `List.map`
that rewrites the matching rows, and `COMMIT` is counted explicitly in each
mutating handler's result.  Python strings that the code computes on are
embedded as `List Char` (Lean `String` primitives are not kernel-reducible);
fixed response messages stay literal `String`s.  Timestamps are `Nat`,
prices/ratings are `Rat`.
-/

namespace ECom

/-- Python strings that the code computes on. -/
abbrev Str := List Char

/-- Python `str.strip()`: drop leading and trailing whitespace. -/
def pyStrip (s : Str) : Str :=
  ((s.dropWhile Char.isWhitespace).reverse.dropWhile Char.isWhitespace).reverse

/-- Python `str.lower()`. -/
def pyLower (s : Str) : Str := s.map Char.toLower

/-- SQL LIKE pattern matching: `%` matches any character sequence, `_` matches
    exactly one character, every other pattern character matches itself.  The
    code emits no ESCAPE clause, so these are the only metacharacters. -/
def likeMatch : Str → Str → Bool
  | [], t => t.isEmpty
  | c :: ps, t =>
    if c == '%' then (t.tails).any (fun s => likeMatch ps s)
    else
      match t with
      | [] => false
      | d :: ts => (c == '_' || c == d) && likeMatch ps ts

/-- SQL `lower(name) LIKE '%' || lower(search) || '%'` with the raw search value
    interpolated into the pattern (products.py line 93): any `%` or `_` inside the
    search acts as a LIKE wildcard. -/
def sqlLowerLike (name search : Str) : Bool :=
  likeMatch ('%' :: (pyLower search ++ ['%'])) (pyLower name)

/-- Row of `categories` (app/models/categories.py). -/
structure Category where
  id : Nat
  name : Str
  is_active : Bool
  parent_id : Option Nat
deriving DecidableEq

/-- Row of `products`.  The ORM model file `app/models/products.py` is not among
    the provided sources; the field list follows spec section 3 and the columns the
    routers touch (id, name, description, price, stock, category_id, seller_id,
    image_url, rating, is_active, created_at, updated_at). -/
structure Product where
  id : Nat
  name : Str
  description : Option Str
  price : Rat
  stock : Nat
  category_id : Nat
  seller_id : Nat
  image_url : Option Str
  rating : Rat
  is_active : Bool
  created_at : Nat
  updated_at : Nat
deriving DecidableEq

/-- Row of `reviews` (app/models/reviews.py). -/
structure Review where
  id : Nat
  user_id : Nat
  product_id : Nat
  comment : Option Str
  comment_date : Nat
  grade : Nat
  is_active : Bool
deriving DecidableEq

/-- The authenticated user supplied by the auth collaborator. -/
structure User where
  id : Nat
  email : Str
  role : Str
deriving DecidableEq

/-- The relational store reachable through the session. -/
structure Store where
  categories : List Category
  products : List Product
  reviews : List Review
deriving DecidableEq

/-- `HTTPException` taxonomy raised by the handlers (spec section 7). -/
inductive ApiErr where
  /-- 422, FastAPI/pydantic parameter validation or an explicit 422 raise. -/
  | validation (detail : String)
  /-- 400 -/
  | badRequest (detail : String)
  /-- 404 -/
  | notFound (detail : String)
  /-- 403 -/
  | forbidden (detail : String)
deriving DecidableEq

/-- Result of one mutating request: the HTTP response, the store as the database
    leaves it once the request ends, and how many `commit` calls were issued. -/
structure MutOut (α : Type) where
  resp : Except ApiErr α
  store : Store
  commits : Nat

/-- `{"status": ..., "message": ...}` envelope. -/
structure StatusMsg where
  status : String
  message : String
deriving DecidableEq

/-- `{"message": ...}` envelope returned by delete_review. -/
structure MsgOnly where
  message : String
deriving DecidableEq

/-! ## reviews.py -/

/-- Embeds `update_product_rating` (reviews.py lines 15-25): `SELECT avg(grade)`
    over the product's active reviews (`NULL`, hence Python `None`, when there are
    none), `scalar() or 0.0`, assignment to the row fetched by primary key, and one
    `commit`.  Returns the new store and the commit count (always 1). -/
def update_product_rating (st : Store) (product_id : Nat) : Store × Nat :=
  let grades : List Rat :=
    (st.reviews.filter (fun r => r.product_id == product_id && r.is_active)).map
      (fun r => (r.grade : Rat))
  let scalar : Option Rat :=
    if grades.length == 0 then none else some (grades.sum / (grades.length : Rat))
  let avg_rating : Rat :=
    match scalar with
    | none => 0
    | some v => if v == 0 then 0 else v
  ({ st with
      products := st.products.map fun p =>
        if p.id == product_id then { p with rating := avg_rating } else p },
   1)

/-- Embeds GET /reviews/ (get_all_reviews). -/
def get_all_reviews (st : Store) : List Review :=
  st.reviews.filter (fun r => r.is_active)

/-- Body of a POST /reviews/ request (schema ReviewCreate). -/
structure ReviewCreate where
  product_id : Nat
  comment : Option Str
  grade : Nat
deriving DecidableEq

/-- Embeds POST /reviews/ (create_new_review): active-product lookup, grade range
    check, INSERT + commit, then `update_product_rating` (its commit included). -/
def create_new_review (st : Store) (review_create : ReviewCreate) (u : User)
    (newId : Nat) (now : Nat) : MutOut Review :=
  match (st.products.filter
      (fun p => p.id == review_create.product_id && p.is_active)).head? with
  | none => ⟨.error (.notFound "Product not found or inactive"), st, 0⟩
  | some _ =>
    if review_create.grade < 1 || 5 < review_create.grade then
      ⟨.error (.validation "Grade must be in range [1, 5]"), st, 0⟩
    else
      let review : Review :=
        { id := newId, user_id := u.id, product_id := review_create.product_id,
          comment := review_create.comment, comment_date := now,
          grade := review_create.grade, is_active := true }
      let st1 := { st with reviews := st.reviews ++ [review] }
      let out := update_product_rating st1 review_create.product_id
      ⟨.ok review, out.1, 1 + out.2⟩

/-- Embeds DELETE /reviews/review_id (delete_review): active-review lookup,
    author-or-admin gate, UPDATE is_active=false + commit, then
    `update_product_rating` (its commit included). -/
def delete_review (st : Store) (review_id : Nat) (u : User) : MutOut MsgOnly :=
  match (st.reviews.filter (fun r => r.id == review_id && r.is_active)).head? with
  | none => ⟨.error (.notFound "Review is not found or inactive"), st, 0⟩
  | some review =>
    if !(u.role == "admin".toList || review.user_id == u.id) then
      ⟨.error (.forbidden "Only admins and the review creator can delete this review"),
       st, 0⟩
    else
      let st1 := { st with
        reviews := st.reviews.map fun r =>
          if r.id == review_id then { r with is_active := false } else r }
      let out := update_product_rating st1 review.product_id
      ⟨.ok ⟨"Review deleted"⟩, out.1, 1 + out.2⟩

/-! ## categories.py -/

/-- Embeds GET /categories/ (get_all_categories). -/
def get_all_categories (st : Store) : List Category :=
  st.categories.filter (fun c => c.is_active)

/-- Body of POST/PUT /categories (schema CategoryCreate). -/
structure CategoryCreate where
  name : Str
  parent_id : Option Nat
deriving DecidableEq

/-- Embeds POST /categories/ (create_category): optional active-parent check,
    INSERT (is_active defaults to true in the model) + one commit. -/
def create_category (st : Store) (category : CategoryCreate) (newId : Nat) :
    MutOut Category :=
  let parentMissing : Bool :=
    match category.parent_id with
    | none => false
    | some pid =>
      ((st.categories.filter (fun c => c.id == pid && c.is_active)).head?).isNone
  if parentMissing then ⟨.error (.badRequest "Parent not found"), st, 0⟩
  else
    let db_category : Category :=
      { id := newId, name := category.name, is_active := true,
        parent_id := category.parent_id }
    ⟨.ok db_category, { st with categories := st.categories ++ [db_category] }, 1⟩

/-- Embeds PUT /categories/category_id (update_category): active-target lookup,
    optional active-parent check, UPDATE of the supplied fields + one commit.
    The response is the fetched object, which the code does not refresh. -/
def update_category (st : Store) (category_id : Nat) (category : CategoryCreate) :
    MutOut Category :=
  match (st.categories.filter
      (fun c => c.id == category_id && c.is_active)).head? with
  | none => ⟨.error (.notFound "Category not found"), st, 0⟩
  | some db_category =>
    let parentMissing : Bool :=
      match category.parent_id with
      | none => false
      | some pid =>
        ((st.categories.filter (fun c => c.id == pid && c.is_active)).head?).isNone
    if parentMissing then ⟨.error (.badRequest "Parent category not found"), st, 0⟩
    else
      ⟨.ok db_category,
       { st with
          categories := st.categories.map fun c =>
            if c.id == category_id then
              { c with name := category.name, parent_id := category.parent_id }
            else c },
       1⟩

/-- Embeds DELETE /categories/category_id (delete_category): active-target lookup,
    UPDATE is_active=false + one commit. -/
def delete_category (st : Store) (category_id : Nat) : MutOut StatusMsg :=
  match (st.categories.filter
      (fun c => c.id == category_id && c.is_active)).head? with
  | none => ⟨.error (.notFound "Category not found"), st, 0⟩
  | some _ =>
    ⟨.ok ⟨"success", "Category marked as inactive"⟩,
     { st with
        categories := st.categories.map fun c =>
          if c.id == category_id then { c with is_active := false } else c },
     1⟩

/-! ## products.py -/

/-- `ALLOWED_IMAGE_TYPES` (products.py line 21). -/
def ALLOWED_IMAGE_TYPES : List Str :=
  ["image/jpeg".toList, "image/png".toList, "image/webp".toList]

/-- `MAX_IMAGE_SIZE = 2 * 1024 * 1024` bytes (products.py line 22). -/
def MAX_IMAGE_SIZE : Nat := 2 * 1024 * 1024

/-- The final component of a path: everything after the last '/'. -/
def lastComponent (s : Str) : Str :=
  ((s.reverse).takeWhile (fun c => c != '/')).reverse

/-- `pathlib.PurePath(s).suffix`: the substring of the final component starting at
    its last dot, provided that dot is neither the first nor the last character of
    the component; otherwise empty. -/
def pathSuffix (s : Str) : Str :=
  let name := lastComponent s
  let relIdx := ((name.reverse).takeWhile (fun c => c != '.')).length
  let i := name.length - 1 - relIdx
  if 0 < i ∧ i < name.length - 1 then name.drop i else []

/-- An uploaded multipart file: original filename, declared MIME type, raw bytes. -/
structure UploadFile where
  filename : Option Str
  content_type : Str
  content : List UInt8
deriving DecidableEq

/-- Embeds `save_product_image` (products.py lines 31-47): MIME allow-list check,
    size check on the read bytes, filename `uuid + extension` where the extension is
    the lowercased original suffix or ".jpg" when absent, returning the relative
    URL.  The freshly generated uuid4 string is passed in as `freshUuid`. -/
def save_product_image (file : UploadFile) (freshUuid : Str) : Except ApiErr Str :=
  if !(ALLOWED_IMAGE_TYPES.contains file.content_type) then
    .error (.badRequest "Only JPG, PNG or WebP images are allowed")
  else if MAX_IMAGE_SIZE < file.content.length then
    .error (.badRequest "Image is too large")
  else
    let suffix := pyLower (pathSuffix (file.filename.getD []))
    let extension := if suffix.isEmpty then ".jpg".toList else suffix
    let file_name := freshUuid ++ extension
    .ok ("/media/products/".toList ++ file_name)

/-- Query parameters of GET /products/ (products.py lines 63-74). -/
structure ProductQuery where
  page : Nat
  page_size : Nat
  category_id : Option Nat
  search : Option Str
  min_price : Option Rat
  max_price : Option Rat
  in_stock : Option Bool
  seller_id : Option Nat
  created_at : Option Nat
deriving DecidableEq

/-- The FastAPI `Query` constraints declared in the signature of get_all_products:
    page >= 1, 1 <= page_size <= 100, search min_length=1, min_price >= 0,
    max_price >= 0.  A request violating one of them is rejected with 422 before
    the handler body runs. -/
def validQueryParams (q : ProductQuery) : Bool :=
  (1 ≤ q.page : Bool)
  && (1 ≤ q.page_size : Bool)
  && (q.page_size ≤ 100 : Bool)
  && (match q.search with | none => true | some s => (1 ≤ s.length : Bool))
  && (match q.min_price with | none => true | some m => decide (0 ≤ m))
  && (match q.max_price with | none => true | some m => decide (0 ≤ m))

/-- The WHERE clause built by get_all_products (products.py lines 86-103):
    is_active plus each supplied filter, combined with AND.  A supplied search is
    stripped; a stripped-empty search adds no predicate. -/
def matchesFilters (q : ProductQuery) (p : Product) : Bool :=
  p.is_active
  && (match q.category_id with | none => true | some c => p.category_id == c)
  && (match q.search with
      | none => true
      | some s =>
        let search_value := pyStrip s
        if search_value.isEmpty then true else sqlLowerLike p.name search_value)
  && (match q.min_price with | none => true | some m => decide (m ≤ p.price))
  && (match q.max_price with | none => true | some m => decide (p.price ≤ m))
  && (match q.in_stock with
      | none => true
      | some b => if b then decide (0 < p.stock) else p.stock == 0)
  && (match q.seller_id with | none => true | some sid => p.seller_id == sid)
  && (match q.created_at with | none => true | some t => decide (t ≤ p.created_at))

/-- `ORDER BY ProductModel.id`: the rows sorted by id ascending. -/
def orderById (ps : List Product) : List Product :=
  ps.insertionSort (fun a b => a.id ≤ b.id)

/-- Response model ProductList (schemas.py). -/
structure ProductListPage where
  items : List Product
  total : Nat
  page : Nat
  page_size : Nat
deriving DecidableEq

/-- Embeds GET /products/ (get_all_products, products.py lines 62-146): parameter
    validation, the min/max price consistency check, the COUNT over the filter set,
    and the ordered OFFSET/LIMIT page.  The full-text rank branch is dead code
    (`rank_col` is always None) and is omitted. -/
def get_all_products (st : Store) (q : ProductQuery) : Except ApiErr ProductListPage :=
  if !validQueryParams q then
    .error (.validation "query parameter validation failed")
  else if (match q.min_price, q.max_price with
           | some mn, some mx => decide (mx < mn)
           | _, _ => false) then
    .error (.badRequest "min_price cannot be greater than max_price")
  else
    let total := (st.products.filter (matchesFilters q)).length
    let items :=
      (((orderById st.products).filter (matchesFilters q)).drop
        ((q.page - 1) * q.page_size)).take q.page_size
    .ok { items := items, total := total, page := q.page, page_size := q.page_size }

/-- Body of POST/PUT /products (schema ProductCreate, via as_form). -/
structure ProductCreate where
  name : Str
  description : Option Str
  price : Rat
  stock : Nat
  category_id : Nat
deriving DecidableEq

/-- Embeds POST /products/ (create_product): active-category check, optional image
    save (any image error aborts before the commit), INSERT + one commit.  The new
    row's server-side defaults (is_active, rating, timestamps) follow spec
    section 3 since app/models/products.py is not among the sources. -/
def create_product (st : Store) (product_create : ProductCreate)
    (image : Option UploadFile) (u : User) (newId : Nat) (freshUuid : Str)
    (now : Nat) : MutOut Product :=
  match (st.categories.filter
      (fun c => c.id == product_create.category_id && c.is_active)).head? with
  | none => ⟨.error (.badRequest "Category not found or inactive"), st, 0⟩
  | some _ =>
    let imageRes : Except ApiErr (Option Str) :=
      match image with
      | none => .ok none
      | some f => (save_product_image f freshUuid).map some
    match imageRes with
    | .error e => ⟨.error e, st, 0⟩
    | .ok image_url =>
      let db_product : Product :=
        { id := newId, name := product_create.name,
          description := product_create.description, price := product_create.price,
          stock := product_create.stock, category_id := product_create.category_id,
          seller_id := u.id, image_url := image_url, rating := 0, is_active := true,
          created_at := now, updated_at := now }
      ⟨.ok db_product, { st with products := st.products ++ [db_product] }, 1⟩

/-- Embeds GET /products/category/category_id (get_products_by_category). -/
def get_products_by_category (st : Store) (category_id : Nat) :
    Except ApiErr (List Product) :=
  match (st.categories.filter
      (fun c => c.id == category_id && c.is_active)).head? with
  | none => .error (.notFound "Category not found or inactive")
  | some _ =>
    .ok (st.products.filter (fun p => p.category_id == category_id && p.is_active))

/-- Embeds GET /products/product_id (get_product): active-product lookup, then an
    active-category lookup that turns an orphaned product into a 400. -/
def get_product (st : Store) (product_id : Nat) : Except ApiErr Product :=
  match (st.products.filter
      (fun p => p.id == product_id && p.is_active)).head? with
  | none => .error (.notFound "Product not found or inactive")
  | some product =>
    match (st.categories.filter
        (fun c => c.id == product.category_id && c.is_active)).head? with
    | none => .error (.badRequest "Category not found or inactive")
    | some _ => .ok product

/-- Embeds PUT /products/product_id (update_product): active-target lookup,
    ownership gate, active-category check, UPDATE of the form fields, optional
    image replacement (an image error aborts before the commit, discarding the
    pending UPDATE), one commit. -/
def update_product (st : Store) (product_id : Nat) (product : ProductCreate)
    (image : Option UploadFile) (u : User) (freshUuid : Str) : MutOut Product :=
  match (st.products.filter
      (fun p => p.id == product_id && p.is_active)).head? with
  | none => ⟨.error (.notFound "Product not found or inactive"), st, 0⟩
  | some db_product =>
    if db_product.seller_id != u.id then
      ⟨.error (.forbidden "You can only update your own products"), st, 0⟩
    else
      match (st.categories.filter
          (fun c => c.id == product.category_id && c.is_active)).head? with
      | none => ⟨.error (.badRequest "Category not found or inactive"), st, 0⟩
      | some _ =>
        let imageRes : Except ApiErr (Option Str) :=
          match image with
          | none => .ok none
          | some f => (save_product_image f freshUuid).map some
        match imageRes with
        | .error e => ⟨.error e, st, 0⟩
        | .ok newUrl =>
          let applyUpd : Product → Product := fun p =>
            { p with name := product.name, description := product.description,
                     price := product.price, stock := product.stock,
                     category_id := product.category_id,
                     image_url := match newUrl with
                       | none => p.image_url
                       | some url => some url }
          ⟨.ok (applyUpd db_product),
           { st with
              products := st.products.map fun p =>
                if p.id == product_id then applyUpd p else p },
           1⟩

/-- Embeds DELETE /products/product_id (delete_product): active-target lookup,
    ownership gate, UPDATE is_active=false + one commit (the image file removal is
    a filesystem effect outside the store). -/
def delete_product (st : Store) (product_id : Nat) (u : User) : MutOut StatusMsg :=
  match (st.products.filter
      (fun p => p.id == product_id && p.is_active)).head? with
  | none => ⟨.error (.notFound "Product not found or inactive"), st, 0⟩
  | some product =>
    if product.seller_id != u.id then
      ⟨.error (.forbidden "You can only delete your products"), st, 0⟩
    else
      ⟨.ok ⟨"success", "Product marked as inactive"⟩,
       { st with
          products := st.products.map fun p =>
            if p.id == product_id then { p with is_active := false } else p },
       1⟩

/-- Embeds GET /products/product_id/reviews (get_product_reviews). -/
def get_product_reviews (st : Store) (product_id : Nat) :
    Except ApiErr (List Review) :=
  match (st.products.filter
      (fun p => p.id == product_id && p.is_active)).head? with
  | none => .error (.notFound "Product not found or inactive")
  | some _ =>
    .ok (st.reviews.filter (fun r => r.product_id == product_id && r.is_active))

/-! ## Specification-side definitions used to state the claims -/

/-- The arithmetic mean of grade across the currently-active reviews of a product,
    0 when there are none: the spec-side description of the stored rating
    (spec sections 4.2 and 8), to be compared with what the code stores. -/
def specMeanRating (st : Store) (product_id : Nat) : Rat :=
  let gs := (st.reviews.filter
      (fun r => r.product_id == product_id && r.is_active)).map Review.grade
  if gs = [] then 0
  else ((gs.map (fun (g : Nat) => (g : Rat))).sum) / (gs.length : Rat)

/-- Commit discipline of one handler invocation: on success exactly `k` commits;
    on error the store is unchanged and no commit was issued. -/
def CommitSpec {α : Type} (st : Store) (out : MutOut α) (k : Nat) : Prop :=
  ((∃ v, out.resp = .ok v) → out.commits = k)
  ∧ ((∃ e, out.resp = .error e) → out.store = st ∧ out.commits = 0)

/-- Row-wise effect of a soft delete on the categories table: ids and all other
    fields survive; a row is rewritten only when targeted, and then only its
    is_active flag drops to false. -/
def SoftDeletedCat (category_id : Nat) (old new : Category) : Prop :=
  new.id = old.id ∧ new.name = old.name ∧ new.parent_id = old.parent_id
  ∧ (old.id ≠ category_id → new = old)
  ∧ (old.id = category_id → new.is_active = false)

/-- Row-wise effect of a soft delete on the products table. -/
def SoftDeletedProd (product_id : Nat) (old new : Product) : Prop :=
  new.id = old.id ∧ new.name = old.name ∧ new.description = old.description
  ∧ new.price = old.price ∧ new.stock = old.stock
  ∧ new.category_id = old.category_id ∧ new.seller_id = old.seller_id
  ∧ new.image_url = old.image_url ∧ new.rating = old.rating
  ∧ new.created_at = old.created_at ∧ new.updated_at = old.updated_at
  ∧ (old.id ≠ product_id → new = old)
  ∧ (old.id = product_id → new.is_active = false)

/-- Row-wise effect of a soft delete on the reviews table. -/
def SoftDeletedRev (review_id : Nat) (old new : Review) : Prop :=
  new.id = old.id ∧ new.user_id = old.user_id ∧ new.product_id = old.product_id
  ∧ new.comment = old.comment ∧ new.comment_date = old.comment_date
  ∧ new.grade = old.grade
  ∧ (old.id ≠ review_id → new = old)
  ∧ (old.id = review_id → new.is_active = false)

/-- A product row changed in at most its rating field (in particular its
    is_active flag is untouched): the only write the review mutators perform on
    products, through the documented synchronous rating recomputation. -/
def RatingOnly (old new : Product) : Prop :=
  new = { old with rating := new.rating }

/-! ## Concrete fixtures used by the witnesses -/

/-- Concrete store for the C10 witness: an active product whose category row is
    inactive. -/
def stC10 : Store :=
  { categories := [⟨5, "cat".toList, false, none⟩],
    products := [⟨1, "widget".toList, none, 10, 3, 5, 7, none, 0, true, 0, 0⟩],
    reviews := [] }

/-- Concrete store for the C7 witness: one inactive category, product and review. -/
def stC7 : Store :=
  { categories := [⟨1, "old".toList, false, none⟩],
    products := [⟨1, "gone".toList, none, 1, 0, 1, 5, none, 0, false, 0, 0⟩],
    reviews := [⟨1, 9, 1, none, 0, 5, false⟩] }

/-- A seller user for witnesses. -/
def sellerU : User := ⟨5, "sel@example.com".toList, "seller".toList⟩

/-- Concrete store for the C8 witness: one active product owned by seller 5. -/
def stC8 : Store :=
  { categories := [⟨1, "cat".toList, true, none⟩],
    products := [⟨1, "mine".toList, none, 10, 2, 1, 5, none, 0, true, 0, 0⟩],
    reviews := [] }

/-- A different seller. -/
def otherSellerU : User := ⟨6, "other@example.com".toList, "seller".toList⟩

/-- Pagination query with no filters, page 1, page size 20 (the declared
    defaults). -/
def qAllNone : ProductQuery := ⟨1, 20, none, none, none, none, none, none, none⟩

/-- Concrete store for the C4 witness: two active products with ids 1 and 2. -/
def stC4 : Store :=
  { categories := [⟨1, "cat".toList, true, none⟩],
    products := [⟨2, "b".toList, none, 2, 1, 1, 5, none, 0, true, 0, 0⟩,
                 ⟨1, "a".toList, none, 1, 1, 1, 5, none, 0, true, 0, 0⟩],
    reviews := [] }

/-- A buyer user for witnesses. -/
def buyerU : User := ⟨20, "b@example.com".toList, "buyer".toList⟩

/-- Concrete store for the C2 and C3 scenarios: one active product, three active
    reviews by buyer 20 with grades 5, 3 and 4. -/
def stC2 : Store :=
  { categories := [⟨1, "cat".toList, true, none⟩],
    products := [⟨1, "p".toList, none, 10, 2, 1, 5, none, 0, true, 0, 0⟩],
    reviews := [⟨1, 20, 1, none, 0, 5, true⟩,
                ⟨2, 20, 1, none, 0, 3, true⟩,
                ⟨3, 20, 1, none, 0, 4, true⟩] }

/-- Concrete store for the C1 counterexample: an active product whose name
    matches the LIKE pattern of the search "100%" without containing it as a
    literal substring. -/
def stBulb : Store :=
  { categories := [⟨1, "cat".toList, true, none⟩],
    products := [⟨1, "100 watt bulb".toList, none, 10, 2, 1, 5, none, 0, true, 0, 0⟩],
    reviews := [] }

/-- The C1 counterexample query: searching for "100%". -/
def qBulb : ProductQuery :=
  ⟨1, 20, none, some "100%".toList, none, none, none, none, none⟩

/-! ## Shared lemmas -/

/-- A successful GET /products/ response: its items are the ordered page slice and
    its total is the filter-set count. -/
theorem get_all_products_ok_spec {st : Store} {q : ProductQuery}
    {r : ProductListPage} (h : get_all_products st q = .ok r) :
    r.items = (((orderById st.products).filter (matchesFilters q)).drop
        ((q.page - 1) * q.page_size)).take q.page_size
    ∧ r.total = (st.products.filter (matchesFilters q)).length
    ∧ r.page = q.page ∧ r.page_size = q.page_size := by
  unfold get_all_products at h
  split at h
  · exact absurd h (by simp)
  · split at h
    · exact absurd h (by simp)
    · simp only [Except.ok.injEq] at h
      subst h
      exact ⟨rfl, rfl, rfl, rfl⟩

/-- Every item of a successful GET /products/ page satisfies the WHERE clause. -/
theorem matches_of_mem_items {st : Store} {q : ProductQuery}
    {r : ProductListPage} {p : Product} (hok : get_all_products st q = .ok r)
    (hp : p ∈ r.items) : matchesFilters q p = true := by
  obtain ⟨hi, -, -, -⟩ := get_all_products_ok_spec hok
  rw [hi] at hp
  exact List.of_mem_filter (List.mem_of_mem_drop (List.mem_of_mem_take hp))

/-- The WHERE clause only depends on the filter fields, not on pagination. -/
theorem matchesFilters_congr {q q' : ProductQuery}
    (h1 : q'.category_id = q.category_id) (h2 : q'.search = q.search)
    (h3 : q'.min_price = q.min_price) (h4 : q'.max_price = q.max_price)
    (h5 : q'.in_stock = q.in_stock) (h6 : q'.seller_id = q.seller_id)
    (h7 : q'.created_at = q.created_at) :
    matchesFilters q' = matchesFilters q := by
  funext p
  unfold matchesFilters
  rw [h1, h2, h3, h4, h5, h6, h7]

/-- A leading `%` in a LIKE pattern peels off to matching some suffix. -/
theorem likeMatch_percent {ps t : Str} (h : likeMatch ('%' :: ps) t = true) :
    ∃ s, s <:+ t ∧ likeMatch ps s = true := by
  unfold likeMatch at h
  rw [if_pos (by decide)] at h
  obtain ⟨s, hs, hm⟩ := List.any_eq_true.mp h
  exact ⟨s, (List.mem_tails s t).mp hs, hm⟩

/-- A metacharacter-free pattern followed by a single `%` matches exactly the
    texts it is a prefix of. -/
theorem likeMatch_literal_prefix {w : Str}
    (hp : '%' ∉ w) (hu : '_' ∉ w) {s : Str}
    (h : likeMatch (w ++ ['%']) s = true) : w <+: s := by
  induction w generalizing s with
  | nil => exact List.nil_prefix
  | cons c cs ih =>
    have hcp : ¬c = '%' := fun hc => hp (hc ▸ List.mem_cons_self ..)
    have hcu : ¬c = '_' := fun hc => hu (hc ▸ List.mem_cons_self ..)
    rw [List.cons_append] at h
    unfold likeMatch at h
    rw [if_neg (by simpa using hcp)] at h
    cases s with
    | nil => exact absurd h (by simp)
    | cons d ts =>
      simp only [Bool.and_eq_true, Bool.or_eq_true, beq_iff_eq] at h
      obtain ⟨hcd, hrest⟩ := h
      have hcd' : c = d := by
        cases hcd with
        | inl h' => exact absurd h' hcu
        | inr h' => exact h'
      exact List.cons_prefix_cons.mpr
        ⟨hcd', ih (fun hc => hp (List.mem_cons_of_mem _ hc))
          (fun hc => hu (List.mem_cons_of_mem _ hc)) hrest⟩

/-- For a search whose lowered form contains no LIKE metacharacter, the code's
    LIKE filter is exactly case-insensitive substring containment. -/
theorem sqlLowerLike_substring {name search : Str}
    (hp : '%' ∉ pyLower search) (hu : '_' ∉ pyLower search)
    (h : sqlLowerLike name search = true) :
    pyLower search <:+: pyLower name := by
  unfold sqlLowerLike at h
  obtain ⟨s, hsuf, hm⟩ := likeMatch_percent h
  exact List.infix_iff_prefix_suffix.mpr
    ⟨s, likeMatch_literal_prefix hp hu hm, hsuf⟩

/-- Unpacking the WHERE clause into the individual predicates. -/
theorem matchesFilters_unpack {q : ProductQuery} {p : Product}
    (h : matchesFilters q p = true) :
    p.is_active = true
    ∧ (∀ c, q.category_id = some c → p.category_id = c)
    ∧ (∀ s, q.search = some s → pyStrip s ≠ [] →
        sqlLowerLike p.name (pyStrip s) = true)
    ∧ (∀ m, q.min_price = some m → m ≤ p.price)
    ∧ (∀ m, q.max_price = some m → p.price ≤ m)
    ∧ (q.in_stock = some true → 0 < p.stock)
    ∧ (q.in_stock = some false → p.stock = 0)
    ∧ (∀ sid, q.seller_id = some sid → p.seller_id = sid)
    ∧ (∀ t, q.created_at = some t → t ≤ p.created_at) := by
  unfold matchesFilters at h
  simp only [Bool.and_eq_true] at h
  obtain ⟨⟨⟨⟨⟨⟨⟨h1, h2⟩, h3⟩, h4⟩, h5⟩, h6⟩, h7⟩, h8⟩ := h
  refine ⟨h1, ?_, ?_, ?_, ?_, ?_, ?_, ?_, ?_⟩
  · intro c hc; rw [hc] at h2; simpa using h2
  · intro s hs hne
    rw [hs] at h3
    simp only at h3
    rw [if_neg (by simpa [List.isEmpty_iff] using hne)] at h3
    exact h3
  · intro m hm; rw [hm] at h4; simpa using h4
  · intro m hm; rw [hm] at h5; simpa using h5
  · intro hb; rw [hb] at h6; simpa using h6
  · intro hb; rw [hb] at h6; simpa using h6
  · intro sid hsid; rw [hsid] at h7; simpa using h7
  · intro t ht; rw [ht] at h8; simpa using h8

/-! ## C10 -/

/-- C10: GET /products/product_id returns a product only when both the product and
    its referenced category are active; for an active product whose category rows
    are all inactive (or absent) the request fails with the 400 error "Category not
    found or inactive", even though the same product still satisfies the listing
    endpoint's WHERE clause with no filters applied. -/
theorem get_product_requires_active_category (st : Store) (product_id : Nat) :
    (∀ p, get_product st product_id = .ok p →
        p.is_active = true
        ∧ ∃ c ∈ st.categories, c.id = p.category_id ∧ c.is_active = true)
    ∧ (∀ p,
        (st.products.filter (fun x => x.id == product_id && x.is_active)).head? =
          some p →
        (∀ c ∈ st.categories, c.id = p.category_id → c.is_active = false) →
        get_product st product_id = .error (.badRequest "Category not found or inactive")
        ∧ p ∈ st.products.filter
            (matchesFilters ⟨1, 20, none, none, none, none, none, none, none⟩)) := by
  constructor
  · intro p hok
    unfold get_product at hok
    cases hprod : (st.products.filter
        (fun x => x.id == product_id && x.is_active)).head? with
    | none => rw [hprod] at hok; exact absurd hok (by simp)
    | some q =>
      rw [hprod] at hok
      have hok' : (match (st.categories.filter
          (fun c => c.id == q.category_id && c.is_active)).head? with
        | none => Except.error (ApiErr.badRequest "Category not found or inactive")
        | some _ => Except.ok q) = Except.ok p := hok
      cases hcat : (st.categories.filter
          (fun c => c.id == q.category_id && c.is_active)).head? with
      | none => rw [hcat] at hok'; exact absurd hok' (by simp)
      | some c =>
        rw [hcat] at hok'
        simp only [Except.ok.injEq] at hok'
        obtain ⟨ys, hys⟩ := List.head?_eq_some_iff.mp hprod
        have hmemp : q ∈ st.products.filter (fun x => x.id == product_id && x.is_active) := by
          rw [hys]; exact List.mem_cons_self ..
        obtain ⟨zs, hzs⟩ := List.head?_eq_some_iff.mp hcat
        have hmemc : c ∈ st.categories.filter
            (fun x => x.id == q.category_id && x.is_active) := by
          rw [hzs]; exact List.mem_cons_self ..
        have hp := List.of_mem_filter hmemp
        have hc := List.of_mem_filter hmemc
        simp only [Bool.and_eq_true, beq_iff_eq] at hp hc
        rw [← hok']
        exact ⟨hp.2, c, List.mem_of_mem_filter hmemc, hc.1, hc.2⟩
  · intro p hprod hinactive
    have hcat : (st.categories.filter
        (fun c => c.id == p.category_id && c.is_active)).head? = none := by
      rw [List.filter_eq_nil_iff.mpr]
      · rfl
      · intro c hc
        simp only [Bool.and_eq_true, beq_iff_eq, not_and]
        intro hid
        rw [hinactive c hc hid]
        simp
    constructor
    · have hstep : get_product st product_id =
          (match (st.categories.filter
              (fun c => c.id == p.category_id && c.is_active)).head? with
            | none => Except.error (ApiErr.badRequest "Category not found or inactive")
            | some _ => Except.ok p) := by
        unfold get_product
        rw [hprod]
      rw [hstep, hcat]
    · obtain ⟨ys, hys⟩ := List.head?_eq_some_iff.mp hprod
      have hmemp : p ∈ st.products.filter (fun x => x.id == product_id && x.is_active) := by
        rw [hys]; exact List.mem_cons_self ..
      have hp := List.of_mem_filter hmemp
      simp only [Bool.and_eq_true, beq_iff_eq] at hp
      rw [List.mem_filter]
      refine ⟨List.mem_of_mem_filter hmemp, ?_⟩
      unfold matchesFilters
      simp [hp.2]

/-- Witness for C10 at a concrete store. -/
theorem get_product_requires_active_category_witness :
    get_product stC10 1 = .error (.badRequest "Category not found or inactive")
    ∧ (⟨1, "widget".toList, none, 10, 3, 5, 7, none, 0, true, 0, 0⟩ : Product) ∈
        stC10.products.filter
          (matchesFilters ⟨1, 20, none, none, none, none, none, none, none⟩) :=
  (get_product_requires_active_category stC10 1).2
    ⟨1, "widget".toList, none, 10, 3, 5, 7, none, 0, true, 0, 0⟩
    (by decide) (by decide)

/-! ## C7 -/

/-- C7: invoking a delete operation on a category, product or review whose rows
    with the targeted id are all already inactive returns the 404 NotFoundError and
    leaves the store unchanged, with no commit issued. -/
theorem soft_delete_idempotent (st : Store) :
    (∀ category_id c, c ∈ st.categories → c.id = category_id →
        (∀ c' ∈ st.categories, c'.id = category_id → c'.is_active = false) →
        delete_category st category_id =
          ⟨.error (.notFound "Category not found"), st, 0⟩)
    ∧ (∀ product_id (u : User) p, p ∈ st.products → p.id = product_id →
        (∀ p' ∈ st.products, p'.id = product_id → p'.is_active = false) →
        delete_product st product_id u =
          ⟨.error (.notFound "Product not found or inactive"), st, 0⟩)
    ∧ (∀ review_id (u : User) rv, rv ∈ st.reviews → rv.id = review_id →
        (∀ r' ∈ st.reviews, r'.id = review_id → r'.is_active = false) →
        delete_review st review_id u =
          ⟨.error (.notFound "Review is not found or inactive"), st, 0⟩) := by
  refine ⟨?_, ?_, ?_⟩
  · intro category_id c _ _ hall
    have hnil : st.categories.filter (fun x => x.id == category_id && x.is_active) = [] := by
      rw [List.filter_eq_nil_iff]
      intro x hx
      simp only [Bool.and_eq_true, beq_iff_eq, not_and]
      intro h1
      rw [hall x hx h1]
      simp
    unfold delete_category
    rw [hnil]
    rfl
  · intro product_id u p _ _ hall
    have hnil : st.products.filter (fun x => x.id == product_id && x.is_active) = [] := by
      rw [List.filter_eq_nil_iff]
      intro x hx
      simp only [Bool.and_eq_true, beq_iff_eq, not_and]
      intro h1
      rw [hall x hx h1]
      simp
    unfold delete_product
    rw [hnil]
    rfl
  · intro review_id u rv _ _ hall
    have hnil : st.reviews.filter (fun x => x.id == review_id && x.is_active) = [] := by
      rw [List.filter_eq_nil_iff]
      intro x hx
      simp only [Bool.and_eq_true, beq_iff_eq, not_and]
      intro h1
      rw [hall x hx h1]
      simp
    unfold delete_review
    rw [hnil]
    rfl

/-- Witness for C7 at a concrete store. -/
theorem soft_delete_idempotent_witness :
    delete_category stC7 1 = ⟨.error (.notFound "Category not found"), stC7, 0⟩
    ∧ delete_product stC7 1 sellerU =
        ⟨.error (.notFound "Product not found or inactive"), stC7, 0⟩
    ∧ delete_review stC7 1 sellerU =
        ⟨.error (.notFound "Review is not found or inactive"), stC7, 0⟩ := by
  obtain ⟨h1, h2, h3⟩ := soft_delete_idempotent stC7
  exact ⟨h1 1 ⟨1, "old".toList, false, none⟩ (by decide) (by decide) (by decide),
         h2 1 sellerU ⟨1, "gone".toList, none, 1, 0, 1, 5, none, 0, false, 0, 0⟩
           (by decide) (by decide) (by decide),
         h3 1 sellerU ⟨1, 9, 1, none, 0, 5, false⟩ (by decide) (by decide) (by decide)⟩

/-! ## C8 -/

/-- C8: a seller whose id differs from the product's seller_id gets the 403
    ForbiddenError from update_product and delete_product, and the store (hence the
    product record, all fields included) is unchanged, with no commit issued. -/
theorem ownership_gate (st : Store) :
    (∀ product_id (u : User) p (product : ProductCreate) image freshUuid,
        (st.products.filter (fun x => x.id == product_id && x.is_active)).head? =
          some p →
        p.seller_id ≠ u.id →
        update_product st product_id product image u freshUuid =
          ⟨.error (.forbidden "You can only update your own products"), st, 0⟩)
    ∧ (∀ product_id (u : User) p,
        (st.products.filter (fun x => x.id == product_id && x.is_active)).head? =
          some p →
        p.seller_id ≠ u.id →
        delete_product st product_id u =
          ⟨.error (.forbidden "You can only delete your products"), st, 0⟩) := by
  constructor
  · intro product_id u p product image freshUuid hhead hne
    have hb : (p.seller_id != u.id) = true := by simpa [bne_iff_ne] using hne
    unfold update_product
    rw [hhead]
    dsimp only
    rw [if_pos hb]
  · intro product_id u p hhead hne
    have hb : (p.seller_id != u.id) = true := by simpa [bne_iff_ne] using hne
    unfold delete_product
    rw [hhead]
    dsimp only
    rw [if_pos hb]

/-- Witness for C8 at a concrete store. -/
theorem ownership_gate_witness :
    update_product stC8 1 ⟨"x".toList, none, 1, 1, 1⟩ none otherSellerU [] =
      ⟨.error (.forbidden "You can only update your own products"), stC8, 0⟩
    ∧ delete_product stC8 1 otherSellerU =
      ⟨.error (.forbidden "You can only delete your products"), stC8, 0⟩ := by
  obtain ⟨h1, h2⟩ := ownership_gate stC8
  exact ⟨h1 1 otherSellerU ⟨1, "mine".toList, none, 10, 2, 1, 5, none, 0, true, 0, 0⟩
           ⟨"x".toList, none, 1, 1, 1⟩ none [] (by decide) (by decide),
         h2 1 otherSellerU ⟨1, "mine".toList, none, 10, 2, 1, 5, none, 0, true, 0, 0⟩
           (by decide) (by decide)⟩

/-! ## C5 -/

/-- Counterexample for C5: with search set to the empty string the request is
    rejected by the declared parameter validation (min_length=1) instead of being
    accepted with the filter ignored, and its response differs from the identical
    request with search absent, which succeeds. -/
theorem empty_search_counterexample :
    get_all_products ⟨[], [], []⟩ ⟨1, 20, none, some [], none, none, none, none, none⟩
      = .error (.validation "query parameter validation failed")
    ∧ get_all_products ⟨[], [], []⟩ ⟨1, 20, none, none, none, none, none, none, none⟩
      = .ok ⟨[], 0, 1, 20⟩ := ⟨rfl, rfl⟩

/-- C5 amended: a search parameter equal to the empty string is rejected with a
    validation error (the Query declares min_length=1); a search string that is
    nonempty but strips to empty passes validation, adds no name predicate, and
    yields exactly the response of the identical request with search absent. -/
theorem empty_search_amended (st : Store) (q : ProductQuery) (s : Str)
    (hs : q.search = some s) (hne : s ≠ []) (htrim : pyStrip s = []) :
    get_all_products st q = get_all_products st { q with search := none }
    ∧ ∀ q' : ProductQuery, q'.search = some [] →
        get_all_products st q' =
          .error (.validation "query parameter validation failed") := by
  constructor
  · have hlen : 1 ≤ s.length := by
      have : s.length ≠ 0 := by simpa [List.length_eq_zero] using hne
      omega
    have hv : validQueryParams { q with search := none } = validQueryParams q := by
      unfold validQueryParams
      rw [hs]
      simp [hlen]
    have hm : matchesFilters { q with search := none } = matchesFilters q := by
      funext p
      unfold matchesFilters
      rw [hs]
      simp [htrim]
    unfold get_all_products
    rw [hv, hm]
  · intro q' hq'
    have hv : validQueryParams q' = false := by
      unfold validQueryParams
      rw [hq']
      simp
    unfold get_all_products
    rw [hv]
    rfl

/-- Witness for C5's amended claim: a single-space search behaves as no search,
    and the empty-string search is rejected. -/
theorem empty_search_amended_witness :
    get_all_products stC8 ⟨1, 20, none, some " ".toList, none, none, none, none, none⟩
      = get_all_products stC8 ⟨1, 20, none, none, none, none, none, none, none⟩
    ∧ get_all_products stC8 ⟨1, 20, none, some [], none, none, none, none, none⟩
      = .error (.validation "query parameter validation failed") := by
  obtain ⟨h1, h2⟩ := empty_search_amended stC8
    ⟨1, 20, none, some " ".toList, none, none, none, none, none⟩
    " ".toList rfl (by decide) (by decide)
  exact ⟨h1, h2 ⟨1, 20, none, some [], none, none, none, none, none⟩ rfl⟩

/-! ## C1 -/

/-- Counterexample for C1: the search value is interpolated raw into the LIKE
    pattern, so its `%` acts as a wildcard: searching "100%" returns the product
    named "100 watt bulb", which does not contain the literal substring "100%",
    refuting the claimed per-item case-insensitive-substring predicate. -/
theorem substring_search_counterexample :
    get_all_products stBulb qBulb =
      .ok ⟨[⟨1, "100 watt bulb".toList, none, 10, 2, 1, 5, none, 0, true, 0, 0⟩],
           1, 1, 20⟩
    ∧ ¬ (pyLower (pyStrip "100%".toList) <:+: pyLower "100 watt bulb".toList) :=
  ⟨rfl, by decide⟩

/-- C1 amended: every item returned by GET /products/ is an active product
    satisfying all applied filter predicates combined with AND (category exact
    match, inclusive price bounds, in_stock as stock>0 or stock==0, seller exact
    match, created_at inclusive lower bound), where the name predicate is SQL LIKE
    matching of lower(name) against '%' + lower(stripped search) + '%' — raw
    interpolation, so % and _ in the search act as wildcards — which is exactly
    case-insensitive substring containment whenever the search is free of those
    metacharacters; and the reported total is the number of rows matching the
    filter set, independent of the page and page_size parameters; a page past the
    available rows yields an empty items list with that same total. -/
theorem catalog_query_engine_correct (st : Store) (q q' : ProductQuery)
    (r r' : ProductListPage) (hok : get_all_products st q = .ok r)
    (h1 : q'.category_id = q.category_id) (h2 : q'.search = q.search)
    (h3 : q'.min_price = q.min_price) (h4 : q'.max_price = q.max_price)
    (h5 : q'.in_stock = q.in_stock) (h6 : q'.seller_id = q.seller_id)
    (h7 : q'.created_at = q.created_at)
    (hok' : get_all_products st q' = .ok r') :
    (∀ p ∈ r.items,
        p.is_active = true
        ∧ (∀ c, q.category_id = some c → p.category_id = c)
        ∧ (∀ s, q.search = some s → pyStrip s ≠ [] →
            sqlLowerLike p.name (pyStrip s) = true
            ∧ ('%' ∉ pyLower (pyStrip s) → '_' ∉ pyLower (pyStrip s) →
                pyLower (pyStrip s) <:+: pyLower p.name))
        ∧ (∀ m, q.min_price = some m → m ≤ p.price)
        ∧ (∀ m, q.max_price = some m → p.price ≤ m)
        ∧ (q.in_stock = some true → 0 < p.stock)
        ∧ (q.in_stock = some false → p.stock = 0)
        ∧ (∀ sid, q.seller_id = some sid → p.seller_id = sid)
        ∧ (∀ t, q.created_at = some t → t ≤ p.created_at))
    ∧ r.total = (st.products.filter (matchesFilters q)).length
    ∧ r'.total = r.total
    ∧ (r.total ≤ (q'.page - 1) * q'.page_size → r'.items = []) := by
  have hcongr : matchesFilters q' = matchesFilters q :=
    matchesFilters_congr h1 h2 h3 h4 h5 h6 h7
  obtain ⟨hi, ht, -, -⟩ := get_all_products_ok_spec hok
  obtain ⟨hi', ht', -, -⟩ := get_all_products_ok_spec hok'
  refine ⟨?_, ht, ?_, ?_⟩
  · intro p hp
    obtain ⟨ha, hc, hs, hrest⟩ := matchesFilters_unpack (matches_of_mem_items hok hp)
    exact ⟨ha, hc,
      fun s hsq hne => ⟨hs s hsq hne,
        fun hpc huc => sqlLowerLike_substring hpc huc (hs s hsq hne)⟩,
      hrest⟩
  · rw [ht', ht, hcongr]
  · intro hbeyond
    have hlen : ((orderById st.products).filter (matchesFilters q')).length = r.total := by
      rw [ht, hcongr]
      exact ((List.perm_insertionSort _ st.products).filter _).length_eq
    rw [hi', List.drop_eq_nil_of_le (by omega), List.take_nil]

/-- Witness for C1 at a concrete store. -/
theorem catalog_query_engine_correct_witness :
    get_all_products stC8 qAllNone =
      .ok ⟨[⟨1, "mine".toList, none, 10, 2, 1, 5, none, 0, true, 0, 0⟩], 1, 1, 20⟩
    ∧ (⟨[⟨1, "mine".toList, none, 10, 2, 1, 5, none, 0, true, 0, 0⟩], 1, 1, 20⟩ :
        ProductListPage).total = (stC8.products.filter (matchesFilters qAllNone)).length := by
  have hok : get_all_products stC8 qAllNone =
      .ok ⟨[⟨1, "mine".toList, none, 10, 2, 1, 5, none, 0, true, 0, 0⟩], 1, 1, 20⟩ := by
    rfl
  exact ⟨hok,
    (catalog_query_engine_correct stC8 qAllNone qAllNone _ _ hok
      rfl rfl rfl rfl rfl rfl rfl hok).2.1⟩

/-! ## C4 -/

/-- C4: with fixed filters over an unchanged store, page 1 and page 2 of size N are
    the first and second contiguous N-element slices of the full matching result
    ordered by id ascending; together they form its first 2N elements, and with
    distinct row ids the two pages share no product id. -/
theorem pagination_stable (st : Store) (q1 q2 : ProductQuery) (N : Nat)
    (r1 r2 : ProductListPage)
    (hp1 : q1.page = 1) (hs1 : q1.page_size = N)
    (hp2 : q2.page = 2) (hs2 : q2.page_size = N)
    (h1 : q2.category_id = q1.category_id) (h2 : q2.search = q1.search)
    (h3 : q2.min_price = q1.min_price) (h4 : q2.max_price = q1.max_price)
    (h5 : q2.in_stock = q1.in_stock) (h6 : q2.seller_id = q1.seller_id)
    (h7 : q2.created_at = q1.created_at)
    (hnodup : (st.products.map Product.id).Nodup)
    (hok1 : get_all_products st q1 = .ok r1)
    (hok2 : get_all_products st q2 = .ok r2) :
    r1.items = ((orderById st.products).filter (matchesFilters q1)).take N
    ∧ r2.items =
        (((orderById st.products).filter (matchesFilters q1)).drop N).take N
    ∧ r1.items ++ r2.items =
        ((orderById st.products).filter (matchesFilters q1)).take (N + N)
    ∧ ((orderById st.products).filter (matchesFilters q1)).Pairwise
        (fun a b => a.id ≤ b.id)
    ∧ ∀ p ∈ r1.items, ∀ p' ∈ r2.items, p.id ≠ p'.id := by
  have hcongr : matchesFilters q2 = matchesFilters q1 :=
    matchesFilters_congr h1 h2 h3 h4 h5 h6 h7
  obtain ⟨hi1, -, -, -⟩ := get_all_products_ok_spec hok1
  obtain ⟨hi2, -, -, -⟩ := get_all_products_ok_spec hok2
  rw [hp1, hs1] at hi1
  rw [hp2, hs2, hcongr] at hi2
  simp only [Nat.sub_self, Nat.zero_mul, List.drop_zero] at hi1
  have hi2' : r2.items =
      (((orderById st.products).filter (matchesFilters q1)).drop N).take N := by
    rw [hi2]
    norm_num
  refine ⟨hi1, hi2', ?_, ?_, ?_⟩
  · rw [hi1, hi2', ← List.take_add]
  · haveI : IsTotal Product (fun a b => a.id ≤ b.id) :=
      ⟨fun a b => Nat.le_total a.id b.id⟩
    haveI : IsTrans Product (fun a b => a.id ≤ b.id) :=
      ⟨fun _ _ _ => Nat.le_trans⟩
    exact (List.sorted_insertionSort _ st.products).sublist
      (List.filter_sublist _)
  · have hnodupSorted : ((orderById st.products).map Product.id).Nodup :=
      (((List.perm_insertionSort _ st.products).map Product.id).nodup_iff).mpr hnodup
    have hnodupM :
        ((((orderById st.products).filter (matchesFilters q1))).map Product.id).Nodup :=
      hnodupSorted.sublist ((List.filter_sublist _).map Product.id)
    intro p hp p' hp'
    rw [hi1] at hp
    rw [hi2'] at hp'
    have hsplit :
        ((orderById st.products).filter (matchesFilters q1)).map Product.id =
          (((orderById st.products).filter (matchesFilters q1)).take N).map Product.id
          ++ (((orderById st.products).filter (matchesFilters q1)).drop N).map Product.id := by
      rw [← List.map_append, List.take_append_drop]
    rw [hsplit, List.nodup_append] at hnodupM
    intro heq
    exact hnodupM.2.2 (List.mem_map_of_mem Product.id hp)
      (heq ▸ List.mem_map_of_mem Product.id (List.mem_of_mem_take hp'))

/-- Witness for C4 at a concrete store with page size 1. -/
theorem pagination_stable_witness :
    get_all_products stC4 ⟨1, 1, none, none, none, none, none, none, none⟩ =
      .ok ⟨[⟨1, "a".toList, none, 1, 1, 1, 5, none, 0, true, 0, 0⟩], 2, 1, 1⟩
    ∧ get_all_products stC4 ⟨2, 1, none, none, none, none, none, none, none⟩ =
      .ok ⟨[⟨2, "b".toList, none, 2, 1, 1, 5, none, 0, true, 0, 0⟩], 2, 2, 1⟩
    ∧ ∀ p ∈ ([⟨1, "a".toList, none, 1, 1, 1, 5, none, 0, true, 0, 0⟩] : List Product),
        ∀ p' ∈ ([⟨2, "b".toList, none, 2, 1, 1, 5, none, 0, true, 0, 0⟩] : List Product),
          p.id ≠ p'.id := by
  have hok1 : get_all_products stC4 ⟨1, 1, none, none, none, none, none, none, none⟩ =
      .ok ⟨[⟨1, "a".toList, none, 1, 1, 1, 5, none, 0, true, 0, 0⟩], 2, 1, 1⟩ := by rfl
  have hok2 : get_all_products stC4 ⟨2, 1, none, none, none, none, none, none, none⟩ =
      .ok ⟨[⟨2, "b".toList, none, 2, 1, 1, 5, none, 0, true, 0, 0⟩], 2, 2, 1⟩ := by rfl
  have h := pagination_stable stC4
    ⟨1, 1, none, none, none, none, none, none, none⟩
    ⟨2, 1, none, none, none, none, none, none, none⟩ 1 _ _
    rfl rfl rfl rfl rfl rfl rfl rfl rfl rfl rfl (by decide) hok1 hok2
  exact ⟨hok1, hok2, h.2.2.2.2⟩

/-! ## C2 -/

/-- The Python idiom `v or 0.0` is the identity on a number. -/
theorem if_beq_zero_eq (v : Rat) : (if v == 0 then (0 : Rat) else v) = v := by
  by_cases h : v == 0
  · rw [if_pos h]; exact (eq_of_beq h).symm
  · rw [if_neg h]

/-- `scalar() or 0.0` over an aggregate mean: 0 for the empty list, the mean
    otherwise. -/
theorem scalar_or_zero (gs : List Rat) :
    (match (if gs.length == 0 then none else some (gs.sum / (gs.length : Rat))) with
     | none => (0 : Rat)
     | some v => if v == 0 then 0 else v)
    = if gs = [] then 0 else gs.sum / (gs.length : Rat) := by
  by_cases h : gs = []
  · subst h; simp
  · have hlen : (gs.length == 0) = false := by
      simpa [List.length_eq_zero] using h
    rw [if_neg h, hlen]
    simp only [Bool.false_eq_true, if_false]
    exact if_beq_zero_eq _

/-- update_product_rating rewrites exactly the targeted product rows, storing the
    arithmetic mean of grade over that product's active reviews (0 when none). -/
theorem update_product_rating_products (st : Store) (product_id : Nat) :
    (update_product_rating st product_id).1.products =
      st.products.map fun p =>
        if p.id == product_id then
          { p with rating := specMeanRating st product_id }
        else p := by
  unfold update_product_rating
  dsimp only
  rw [scalar_or_zero]
  have hval : (if ((st.reviews.filter
        (fun r => r.product_id == product_id && r.is_active)).map
          (fun r => (r.grade : Rat))) = [] then (0 : Rat)
      else (((st.reviews.filter
        (fun r => r.product_id == product_id && r.is_active)).map
          (fun r => (r.grade : Rat))).sum) /
        ((((st.reviews.filter
        (fun r => r.product_id == product_id && r.is_active)).map
          (fun r => (r.grade : Rat))).length : Nat) : Rat))
      = specMeanRating st product_id := by
    unfold specMeanRating
    dsimp only
    by_cases hnil : (st.reviews.filter
        (fun r => r.product_id == product_id && r.is_active)) = []
    · rw [hnil]
      simp
    · rw [if_neg (by simpa using hnil), if_neg (by simpa using hnil)]
      simp only [List.map_map, List.length_map]
      rfl
  rw [hval]

/-- update_product_rating leaves the reviews (and categories) untouched. -/
theorem update_product_rating_reviews (st : Store) (product_id : Nat) :
    (update_product_rating st product_id).1.reviews = st.reviews
    ∧ (update_product_rating st product_id).1.categories = st.categories :=
  ⟨rfl, rfl⟩

/-- The stored rating after update_product_rating is the active-review mean. -/
theorem stored_rating_eq (st : Store) (product_id : Nat) :
    ∀ p' ∈ (update_product_rating st product_id).1.products, p'.id = product_id →
      p'.rating = specMeanRating st product_id := by
  intro p' hp' hid
  rw [update_product_rating_products] at hp'
  simp only [List.mem_map] at hp'
  obtain ⟨p, hp, hpe⟩ := hp'
  by_cases h : (p.id == product_id)
  · rw [if_pos h] at hpe
    rw [← hpe]
  · rw [if_neg h] at hpe
    rw [← hpe] at hid
    exact absurd (beq_iff_eq.mpr hid) (by simpa using h)

/-- The mean only depends on the reviews table. -/
theorem specMeanRating_congr {s t : Store} (h : s.reviews = t.reviews)
    (product_id : Nat) : specMeanRating s product_id = specMeanRating t product_id := by
  unfold specMeanRating
  rw [h]

/-- Shape of a successful create_new_review: the returned review row, and the
    final state produced by the synchronous rating recomputation over the store
    with the review inserted, with two commits in total. -/
theorem create_new_review_ok_shape {st : Store} {review_create : ReviewCreate}
    {u : User} {newId now : Nat} {rev : Review}
    (h : (create_new_review st review_create u newId now).resp = .ok rev) :
    rev = ⟨newId, u.id, review_create.product_id, review_create.comment, now,
           review_create.grade, true⟩
    ∧ create_new_review st review_create u newId now =
        ⟨.ok rev,
         (update_product_rating { st with reviews := st.reviews ++ [rev] }
            review_create.product_id).1, 2⟩ := by
  unfold create_new_review at h ⊢
  cases hhead : (st.products.filter
      (fun p => p.id == review_create.product_id && p.is_active)).head? with
  | none =>
    simp only [hhead] at h
    exact absurd h (by simp)
  | some p0 =>
    simp only [hhead] at h ⊢
    by_cases hg : (review_create.grade < 1 || 5 < review_create.grade) = true
    · simp only [hg, if_true] at h
      exact absurd h (by simp)
    · simp only [Bool.not_eq_true] at hg
      simp only [hg, Bool.false_eq_true, if_false] at h ⊢
      simp only [Except.ok.injEq] at h
      subst h
      exact ⟨rfl, rfl⟩

/-- Shape of a successful delete_review: the targeted active review exists, and
    the final state is produced by the synchronous rating recomputation over the
    store with the review deactivated, with two commits in total. -/
theorem delete_review_ok_shape {st : Store} {review_id : Nat} {u : User}
    {msg : MsgOnly} (h : (delete_review st review_id u).resp = .ok msg) :
    ∃ review,
      (st.reviews.filter (fun r => r.id == review_id && r.is_active)).head? =
        some review
      ∧ delete_review st review_id u =
          ⟨.ok ⟨"Review deleted"⟩,
           (update_product_rating
              { st with reviews := st.reviews.map fun r =>
                  if r.id == review_id then { r with is_active := false } else r }
              review.product_id).1, 2⟩ := by
  unfold delete_review at h ⊢
  cases hhead : (st.reviews.filter
      (fun r => r.id == review_id && r.is_active)).head? with
  | none =>
    simp only [hhead] at h
    exact absurd h (by simp)
  | some review =>
    simp only [hhead] at h ⊢
    by_cases hgate : (!(u.role == "admin".toList || review.user_id == u.id)) = true
    · simp only [hgate, if_true] at h
      exact absurd h (by simp)
    · simp only [Bool.not_eq_true] at hgate
      simp only [hgate, Bool.false_eq_true, if_false] at h ⊢
      exact ⟨review, rfl, rfl⟩

/-- C2: update_product_rating stores the arithmetic mean of grade over the
    product's currently-active reviews, exactly 0 when none remain; after every
    successful create_new_review and delete_review the stored rating equals the
    mean over the resulting store, because both invoke it synchronously; and on
    the concrete grades [5,3,4] the stored rating is 4, becomes 9/2 after
    soft-deleting the grade-3 review, and 0 after soft-deleting all three. -/
theorem rating_aggregator_correct (st : Store) (product_id : Nat) :
    (∀ p' ∈ (update_product_rating st product_id).1.products, p'.id = product_id →
        p'.rating = specMeanRating st product_id)
    ∧ (∀ review_create u newId now rev,
        (create_new_review st review_create u newId now).resp = .ok rev →
        ∀ p' ∈ (create_new_review st review_create u newId now).store.products,
          p'.id = review_create.product_id →
          p'.rating = specMeanRating
            (create_new_review st review_create u newId now).store
            review_create.product_id)
    ∧ (∀ review_id u msg,
        (delete_review st review_id u).resp = .ok msg →
        ∀ review,
          (st.reviews.filter (fun r => r.id == review_id && r.is_active)).head? =
            some review →
        ∀ p' ∈ (delete_review st review_id u).store.products,
          p'.id = review.product_id →
          p'.rating = specMeanRating (delete_review st review_id u).store
            review.product_id)
    ∧ (∀ p' ∈ (update_product_rating stC2 1).1.products, p'.rating = 4)
    ∧ (∀ p' ∈ (delete_review stC2 2 buyerU).store.products, p'.rating = 9 / 2)
    ∧ (∀ p' ∈ (delete_review (delete_review (delete_review stC2 2 buyerU).store
          1 buyerU).store 3 buyerU).store.products, p'.rating = 0) := by
  refine ⟨stored_rating_eq st product_id, ?_, ?_, ?_, ?_, ?_⟩
  · intro review_create u newId now rev hresp p' hp' hid
    obtain ⟨hrev, hshape⟩ := create_new_review_ok_shape hresp
    rw [hshape] at hp' ⊢
    have := stored_rating_eq { st with reviews := st.reviews ++ [rev] }
      review_create.product_id p' hp' hid
    rw [this]
    exact specMeanRating_congr
      (update_product_rating_reviews
        { st with reviews := st.reviews ++ [rev] } review_create.product_id).1.symm _
  · intro review_id u msg hresp review hhead p' hp' hid
    obtain ⟨review', hhead', hshape⟩ := delete_review_ok_shape hresp
    rw [hhead] at hhead'
    simp only [Option.some.injEq] at hhead'
    rw [← hhead'] at hshape
    rw [hshape] at hp' ⊢
    have := stored_rating_eq
      { st with reviews := st.reviews.map fun r =>
          if r.id == review_id then { r with is_active := false } else r }
      review.product_id p' hp' hid
    rw [this]
    exact specMeanRating_congr
      (update_product_rating_reviews _ review.product_id).1.symm _
  · intro p' hp'
    rw [update_product_rating_products] at hp'
    have hmean : specMeanRating stC2 1 = 4 := by
      have hgs : (stC2.reviews.filter
          (fun r => r.product_id == 1 && r.is_active)).map Review.grade
          = [5, 3, 4] := by decide
      unfold specMeanRating
      dsimp only
      rw [hgs, if_neg (by decide)]
      norm_num
    rw [hmean] at hp'
    simp only [stC2, List.map_cons, List.map_nil] at hp'
    simp only [List.mem_singleton] at hp'
    subst hp'
    rfl
  · intro p' hp'
    have hstep : delete_review stC2 2 buyerU =
        ⟨.ok ⟨"Review deleted"⟩,
         (update_product_rating
            { stC2 with reviews := stC2.reviews.map fun r =>
                if r.id == 2 then { r with is_active := false } else r } 1).1, 2⟩ := by
      obtain ⟨review, hhead, hshape⟩ :=
        @delete_review_ok_shape stC2 2 buyerU ⟨"Review deleted"⟩ rfl
      have : review = ⟨2, 20, 1, none, 0, 3, true⟩ := by
        rw [show (stC2.reviews.filter (fun r => r.id == 2 && r.is_active)).head? =
            some ⟨2, 20, 1, none, 0, 3, true⟩ from rfl] at hhead
        simpa using hhead.symm
      rw [this] at hshape
      exact hshape
    rw [hstep] at hp'
    rw [update_product_rating_products] at hp'
    have hmean : specMeanRating
        { stC2 with reviews := stC2.reviews.map fun r =>
            if r.id == 2 then { r with is_active := false } else r } 1 = 9 / 2 := by
      have hgs : (({ stC2 with reviews := stC2.reviews.map fun r =>
          if r.id == 2 then { r with is_active := false } else r } : Store).reviews.filter
          (fun r => r.product_id == 1 && r.is_active)).map Review.grade
          = [5, 4] := by decide
      unfold specMeanRating
      dsimp only
      rw [hgs, if_neg (by decide)]
      norm_num
    rw [hmean] at hp'
    simp only [stC2, List.map_cons, List.map_nil] at hp'
    simp only [List.mem_singleton] at hp'
    subst hp'
    rfl
  · intro p' hp'
    revert hp'
    norm_num [delete_review, update_product_rating, stC2, buyerU]
    rintro rfl
    rfl

/-- Witness for C2 at a concrete store and review insertion. -/
theorem rating_aggregator_correct_witness :
    (∀ p' ∈ (update_product_rating stC2 1).1.products, p'.rating = 4)
    ∧ ((create_new_review stC8 ⟨1, none, 5⟩ buyerU 7 3).resp =
        .ok ⟨7, 20, 1, none, 3, 5, true⟩) := by
  refine ⟨(rating_aggregator_correct stC2 1).2.2.2.1, ?_⟩
  rfl

/-! ## C3 -/

/-- Counterexample for C3: a successful create_new_review issues two commits (its
    own insert commit plus the one inside the synchronous update_product_rating
    call), not exactly one. -/
theorem single_commit_counterexample :
    (create_new_review stC2 ⟨1, none, 5⟩ buyerU 7 0).resp =
      .ok ⟨7, 20, 1, none, 0, 5, true⟩
    ∧ (create_new_review stC2 ⟨1, none, 5⟩ buyerU 7 0).commits = 2
    ∧ (2 : Nat) ≠ 1 := ⟨rfl, rfl, by decide⟩

/-- C3 amended: each mutating handler performs exactly one persistence commit per
    successful request, except create_new_review and delete_review, which perform
    exactly two (their own plus the one inside update_product_rating); on any
    handler error the store is unchanged and no commit is issued, so validation
    failures occur before any mutation. -/
theorem commit_discipline (st : Store) :
    (∀ category newId, CommitSpec st (create_category st category newId) 1)
    ∧ (∀ category_id category,
        CommitSpec st (update_category st category_id category) 1)
    ∧ (∀ category_id, CommitSpec st (delete_category st category_id) 1)
    ∧ (∀ product_create image u newId freshUuid now,
        CommitSpec st (create_product st product_create image u newId freshUuid now) 1)
    ∧ (∀ product_id product image u freshUuid,
        CommitSpec st (update_product st product_id product image u freshUuid) 1)
    ∧ (∀ product_id u, CommitSpec st (delete_product st product_id u) 1)
    ∧ (∀ review_create u newId now,
        CommitSpec st (create_new_review st review_create u newId now) 2)
    ∧ (∀ review_id u, CommitSpec st (delete_review st review_id u) 2) := by
  refine ⟨?_, ?_, ?_, ?_, ?_, ?_, ?_, ?_⟩
  · intro category newId
    unfold CommitSpec create_category
    repeat' first
      | split
      | dsimp only
    all_goals first
      | exact ⟨fun _ => rfl, fun ⟨e, he⟩ => absurd he (by simp)⟩
      | exact ⟨fun ⟨v, hv⟩ => absurd hv (by simp), fun _ => ⟨rfl, rfl⟩⟩
  · intro category_id category
    unfold CommitSpec update_category
    repeat' first
      | split
      | dsimp only
    all_goals first
      | exact ⟨fun _ => rfl, fun ⟨e, he⟩ => absurd he (by simp)⟩
      | exact ⟨fun ⟨v, hv⟩ => absurd hv (by simp), fun _ => ⟨rfl, rfl⟩⟩
  · intro category_id
    unfold CommitSpec delete_category
    repeat' first
      | split
      | dsimp only
    all_goals first
      | exact ⟨fun _ => rfl, fun ⟨e, he⟩ => absurd he (by simp)⟩
      | exact ⟨fun ⟨v, hv⟩ => absurd hv (by simp), fun _ => ⟨rfl, rfl⟩⟩
  · intro product_create image u newId freshUuid now
    unfold CommitSpec create_product
    repeat' first
      | split
      | dsimp only
    all_goals first
      | exact ⟨fun _ => rfl, fun ⟨e, he⟩ => absurd he (by simp)⟩
      | exact ⟨fun ⟨v, hv⟩ => absurd hv (by simp), fun _ => ⟨rfl, rfl⟩⟩
  · intro product_id product image u freshUuid
    unfold CommitSpec update_product
    repeat' first
      | split
      | dsimp only
    all_goals first
      | exact ⟨fun _ => rfl, fun ⟨e, he⟩ => absurd he (by simp)⟩
      | exact ⟨fun ⟨v, hv⟩ => absurd hv (by simp), fun _ => ⟨rfl, rfl⟩⟩
  · intro product_id u
    unfold CommitSpec delete_product
    repeat' first
      | split
      | dsimp only
    all_goals first
      | exact ⟨fun _ => rfl, fun ⟨e, he⟩ => absurd he (by simp)⟩
      | exact ⟨fun ⟨v, hv⟩ => absurd hv (by simp), fun _ => ⟨rfl, rfl⟩⟩
  · intro review_create u newId now
    unfold CommitSpec create_new_review
    repeat' first
      | split
      | dsimp only
    all_goals first
      | exact ⟨fun _ => rfl, fun ⟨e, he⟩ => absurd he (by simp)⟩
      | exact ⟨fun ⟨v, hv⟩ => absurd hv (by simp), fun _ => ⟨rfl, rfl⟩⟩
  · intro review_id u
    unfold CommitSpec delete_review
    repeat' first
      | split
      | dsimp only
    all_goals first
      | exact ⟨fun _ => rfl, fun ⟨e, he⟩ => absurd he (by simp)⟩
      | exact ⟨fun ⟨v, hv⟩ => absurd hv (by simp), fun _ => ⟨rfl, rfl⟩⟩

/-- Witness for C3's amended claim: concrete successful requests with their commit
    counts. -/
theorem commit_discipline_witness :
    (create_new_review stC2 ⟨1, none, 5⟩ buyerU 7 0).commits = 2
    ∧ (delete_category stC2 1).commits = 1 := by
  refine ⟨((commit_discipline stC2).2.2.2.2.2.2.1 ⟨1, none, 5⟩ buyerU 7 0).1
      ⟨⟨7, 20, 1, none, 0, 5, true⟩, rfl⟩, ?_⟩
  exact ((commit_discipline stC2).2.2.1 1).1
    ⟨⟨"success", "Category marked as inactive"⟩, rfl⟩

/-! ## C6 -/

/-- The head of a filtered list is a member satisfying the predicate. -/
theorem prop_of_head_filter {α : Type} {p : α → Bool} {l : List α} {a : α}
    (h : (l.filter p).head? = some a) : a ∈ l ∧ p a = true := by
  obtain ⟨ys, hys⟩ := List.head?_eq_some_iff.mp h
  have hmem : a ∈ l.filter p := by rw [hys]; exact List.mem_cons_self ..
  exact ⟨List.mem_of_mem_filter hmem, List.of_mem_filter hmem⟩

/-- Pointwise relation between a list and its image under a row rewrite. -/
theorem forall2_map_self {α : Type} (R : α → α → Prop) (f : α → α) (l : List α)
    (h : ∀ a, R a (f a)) : List.Forall₂ R l (l.map f) := by
  induction l with
  | nil => simp
  | cons x xs ih => exact List.Forall₂.cons (h x) ih

/-- One category row under the UPDATE of delete_category. -/
theorem softDeletedCat_of_ite (category_id : Nat) (a : Category) :
    SoftDeletedCat category_id a
      (if a.id == category_id then { a with is_active := false } else a) := by
  by_cases h : (a.id == category_id) = true
  · rw [if_pos h]
    exact ⟨rfl, rfl, rfl, fun hne => absurd (beq_iff_eq.mp h) hne, fun _ => rfl⟩
  · rw [if_neg h]
    exact ⟨rfl, rfl, rfl, fun _ => rfl, fun heq => absurd (beq_iff_eq.mpr heq) h⟩

/-- One product row under the UPDATE of delete_product. -/
theorem softDeletedProd_of_ite (product_id : Nat) (a : Product) :
    SoftDeletedProd product_id a
      (if a.id == product_id then { a with is_active := false } else a) := by
  by_cases h : (a.id == product_id) = true
  · rw [if_pos h]
    exact ⟨rfl, rfl, rfl, rfl, rfl, rfl, rfl, rfl, rfl, rfl, rfl,
           fun hne => absurd (beq_iff_eq.mp h) hne, fun _ => rfl⟩
  · rw [if_neg h]
    exact ⟨rfl, rfl, rfl, rfl, rfl, rfl, rfl, rfl, rfl, rfl, rfl,
           fun _ => rfl, fun heq => absurd (beq_iff_eq.mpr heq) h⟩

/-- One review row under the UPDATE of delete_review. -/
theorem softDeletedRev_of_ite (review_id : Nat) (a : Review) :
    SoftDeletedRev review_id a
      (if a.id == review_id then { a with is_active := false } else a) := by
  by_cases h : (a.id == review_id) = true
  · rw [if_pos h]
    exact ⟨rfl, rfl, rfl, rfl, rfl, rfl,
           fun hne => absurd (beq_iff_eq.mp h) hne, fun _ => rfl⟩
  · rw [if_neg h]
    exact ⟨rfl, rfl, rfl, rfl, rfl, rfl,
           fun _ => rfl, fun heq => absurd (beq_iff_eq.mpr heq) h⟩

/-- One product row under the rating rewrite of update_product_rating. -/
theorem ratingOnly_of_ite (product_id : Nat) (r : Rat) (a : Product) :
    RatingOnly a (if a.id == product_id then { a with rating := r } else a) := by
  by_cases h : (a.id == product_id) = true
  · rw [if_pos h]; rfl
  · rw [if_neg h]; rfl

/-- Shape of a successful delete_category. -/
theorem delete_category_ok_shape {st : Store} {category_id : Nat} {v : StatusMsg}
    (h : (delete_category st category_id).resp = .ok v) :
    delete_category st category_id =
      ⟨.ok ⟨"success", "Category marked as inactive"⟩,
       { st with categories := st.categories.map fun c =>
           if c.id == category_id then { c with is_active := false } else c },
       1⟩ := by
  unfold delete_category at h ⊢
  cases hhead : (st.categories.filter
      (fun c => c.id == category_id && c.is_active)).head? with
  | none => simp only [hhead] at h; exact absurd h (by simp)
  | some c0 => simp only [hhead] at h ⊢

/-- Shape of a successful delete_product. -/
theorem delete_product_ok_shape {st : Store} {product_id : Nat} {u : User}
    {v : StatusMsg} (h : (delete_product st product_id u).resp = .ok v) :
    delete_product st product_id u =
      ⟨.ok ⟨"success", "Product marked as inactive"⟩,
       { st with products := st.products.map fun p =>
           if p.id == product_id then { p with is_active := false } else p },
       1⟩ := by
  unfold delete_product at h ⊢
  cases hhead : (st.products.filter
      (fun p => p.id == product_id && p.is_active)).head? with
  | none => simp only [hhead] at h; exact absurd h (by simp)
  | some p0 =>
    simp only [hhead] at h ⊢
    by_cases hgate : (p0.seller_id != u.id) = true
    · simp only [hgate, if_true] at h
      exact absurd h (by simp)
    · simp only [Bool.not_eq_true] at hgate
      simp only [hgate, Bool.false_eq_true, if_false] at h ⊢

/-- C6: soft-delete policy: every successful delete only drops the targeted row's
    is_active flag, preserving each table's rows (review deletion additionally
    rewrites at most the rating field of product rows, through the documented
    synchronous rating recomputation, and never an is_active flag); a failed
    delete leaves the store untouched; and every public read path returns only
    rows with is_active = true. -/
theorem soft_delete_policy (st : Store) :
    (∀ c ∈ get_all_categories st, c.is_active = true)
    ∧ (∀ rv ∈ get_all_reviews st, rv.is_active = true)
    ∧ (∀ q r, get_all_products st q = .ok r → ∀ p ∈ r.items, p.is_active = true)
    ∧ (∀ category_id ps, get_products_by_category st category_id = .ok ps →
        ∀ p ∈ ps, p.is_active = true)
    ∧ (∀ product_id p, get_product st product_id = .ok p → p.is_active = true)
    ∧ (∀ product_id rs, get_product_reviews st product_id = .ok rs →
        ∀ rv ∈ rs, rv.is_active = true)
    ∧ (∀ category_id v, (delete_category st category_id).resp = .ok v →
        (delete_category st category_id).store.products = st.products
        ∧ (delete_category st category_id).store.reviews = st.reviews
        ∧ List.Forall₂ (SoftDeletedCat category_id) st.categories
            (delete_category st category_id).store.categories)
    ∧ (∀ product_id u v, (delete_product st product_id u).resp = .ok v →
        (delete_product st product_id u).store.categories = st.categories
        ∧ (delete_product st product_id u).store.reviews = st.reviews
        ∧ List.Forall₂ (SoftDeletedProd product_id) st.products
            (delete_product st product_id u).store.products)
    ∧ (∀ review_id u v, (delete_review st review_id u).resp = .ok v →
        (delete_review st review_id u).store.categories = st.categories
        ∧ List.Forall₂ (SoftDeletedRev review_id) st.reviews
            (delete_review st review_id u).store.reviews
        ∧ List.Forall₂ RatingOnly st.products
            (delete_review st review_id u).store.products)
    ∧ (∀ category_id e, (delete_category st category_id).resp = .error e →
        (delete_category st category_id).store = st)
    ∧ (∀ product_id u e, (delete_product st product_id u).resp = .error e →
        (delete_product st product_id u).store = st)
    ∧ (∀ review_id u e, (delete_review st review_id u).resp = .error e →
        (delete_review st review_id u).store = st) := by
  refine ⟨?_, ?_, ?_, ?_, ?_, ?_, ?_, ?_, ?_, ?_, ?_, ?_⟩
  · intro c hc
    exact List.of_mem_filter hc
  · intro rv hrv
    exact List.of_mem_filter hrv
  · intro q r hok p hp
    exact (matchesFilters_unpack (matches_of_mem_items hok hp)).1
  · intro category_id ps hok p hp
    unfold get_products_by_category at hok
    cases hhead : (st.categories.filter
        (fun c => c.id == category_id && c.is_active)).head? with
    | none => rw [hhead] at hok; exact absurd hok (by simp)
    | some c0 =>
      rw [hhead] at hok
      have hok' : (Except.ok
          (st.products.filter (fun p => p.category_id == category_id && p.is_active))
          : Except ApiErr (List Product)) = Except.ok ps := hok
      simp only [Except.ok.injEq] at hok'
      rw [← hok'] at hp
      have := List.of_mem_filter hp
      simp only [Bool.and_eq_true] at this
      exact this.2
  · intro product_id p hok
    unfold get_product at hok
    cases hprod : (st.products.filter
        (fun x => x.id == product_id && x.is_active)).head? with
    | none => rw [hprod] at hok; exact absurd hok (by simp)
    | some q =>
      rw [hprod] at hok
      have hok' : (match (st.categories.filter
          (fun c => c.id == q.category_id && c.is_active)).head? with
        | none => Except.error (ApiErr.badRequest "Category not found or inactive")
        | some _ => Except.ok q) = Except.ok p := hok
      cases hcat : (st.categories.filter
          (fun c => c.id == q.category_id && c.is_active)).head? with
      | none => rw [hcat] at hok'; exact absurd hok' (by simp)
      | some c =>
        rw [hcat] at hok'
        simp only [Except.ok.injEq] at hok'
        obtain ⟨-, hq⟩ := prop_of_head_filter hprod
        simp only [Bool.and_eq_true] at hq
        rw [← hok']
        exact hq.2
  · intro product_id rs hok rv hrv
    unfold get_product_reviews at hok
    cases hhead : (st.products.filter
        (fun p => p.id == product_id && p.is_active)).head? with
    | none => rw [hhead] at hok; exact absurd hok (by simp)
    | some p0 =>
      rw [hhead] at hok
      have hok' : (Except.ok
          (st.reviews.filter (fun r => r.product_id == product_id && r.is_active))
          : Except ApiErr (List Review)) = Except.ok rs := hok
      simp only [Except.ok.injEq] at hok'
      rw [← hok'] at hrv
      have := List.of_mem_filter hrv
      simp only [Bool.and_eq_true] at this
      exact this.2
  · intro category_id v hok
    rw [delete_category_ok_shape hok]
    exact ⟨rfl, rfl, forall2_map_self _ _ _ (softDeletedCat_of_ite category_id)⟩
  · intro product_id u v hok
    rw [delete_product_ok_shape hok]
    exact ⟨rfl, rfl, forall2_map_self _ _ _ (softDeletedProd_of_ite product_id)⟩
  · intro review_id u v hok
    obtain ⟨review, hhead, hshape⟩ := delete_review_ok_shape hok
    rw [hshape]
    refine ⟨rfl, ?_, ?_⟩
    · exact forall2_map_self _ _ _ (softDeletedRev_of_ite review_id)
    · rw [update_product_rating_products]
      exact forall2_map_self _ _ _ (ratingOnly_of_ite review.product_id _)
  · intro category_id e
    unfold delete_category
    repeat' first
      | split
      | dsimp only
    all_goals first
      | exact fun _ => rfl
      | exact fun he => absurd he (by simp)
  · intro product_id u e
    unfold delete_product
    repeat' first
      | split
      | dsimp only
    all_goals first
      | exact fun _ => rfl
      | exact fun he => absurd he (by simp)
  · intro review_id u e
    unfold delete_review
    repeat' first
      | split
      | dsimp only
    all_goals first
      | exact fun _ => rfl
      | exact fun he => absurd he (by simp)

/-- Counterexample for C6: a successful delete_review does not only set the
    targeted review's is_active flag — through the synchronous rating
    recomputation it also rewrites the product's rating, so the products table
    changes. -/
theorem soft_delete_only_counterexample :
    (∃ v, (delete_review stC2 2 buyerU).resp = .ok v)
    ∧ (delete_review stC2 2 buyerU).store.products ≠ stC2.products := by
  refine ⟨⟨⟨"Review deleted"⟩, rfl⟩, ?_⟩
  norm_num [delete_review, update_product_rating, stC2, buyerU]

/-- Witness for C6 at concrete stores: an executed read and an executed delete. -/
theorem soft_delete_policy_witness :
    (∀ c ∈ get_all_categories stC2, c.is_active = true)
    ∧ (delete_category stC8 1).store.products = stC8.products
    ∧ List.Forall₂ (SoftDeletedCat 1) stC8.categories
        (delete_category stC8 1).store.categories := by
  obtain ⟨hc, -⟩ := soft_delete_policy stC2
  obtain ⟨hd, -, hf⟩ := (soft_delete_policy stC8).2.2.2.2.2.2.1 1
    ⟨"success", "Category marked as inactive"⟩ rfl
  exact ⟨hc, hd, hf⟩

/-! ## C9 -/

/-- C9: save_product_image accepts an upload exactly when its MIME type is one of
    image/jpeg, image/png, image/webp and its content is at most 2,097,152 bytes;
    an accepted upload's URL is "/media/products/" followed by the fresh uuid and
    an extension that is the lowercased original file suffix, or ".jpg" when the
    original name has no suffix; and two accepted uploads whose fresh uuids differ
    (uuid4 strings all have the same length, 36) receive distinct URLs. -/
theorem image_upload_correct :
    (∀ (file : UploadFile) (freshUuid : Str),
      (∃ url, save_product_image file freshUuid = .ok url) ↔
        (file.content_type ∈ ALLOWED_IMAGE_TYPES
          ∧ file.content.length ≤ MAX_IMAGE_SIZE))
    ∧ (∀ (file : UploadFile) (freshUuid url : Str),
        save_product_image file freshUuid = .ok url →
        ∃ ext, url = "/media/products/".toList ++ (freshUuid ++ ext)
          ∧ (pathSuffix (file.filename.getD []) = [] → ext = ".jpg".toList)
          ∧ (pathSuffix (file.filename.getD []) ≠ [] →
              ext = pyLower (pathSuffix (file.filename.getD []))))
    ∧ (∀ (f1 : UploadFile) (u1 url1 : Str) (f2 : UploadFile) (u2 url2 : Str),
        save_product_image f1 u1 = .ok url1 →
        save_product_image f2 u2 = .ok url2 →
        u1.length = u2.length → u1 ≠ u2 → url1 ≠ url2) := by
  have hshape : ∀ (file : UploadFile) (freshUuid url : Str),
      save_product_image file freshUuid = .ok url →
      url = "/media/products/".toList ++
        (freshUuid ++
          (if (pyLower (pathSuffix (file.filename.getD []))).isEmpty
           then ".jpg".toList
           else pyLower (pathSuffix (file.filename.getD [])))) := by
    intro file freshUuid url h
    unfold save_product_image at h
    by_cases ht : (ALLOWED_IMAGE_TYPES.contains file.content_type) = true
    · simp only [ht, Bool.not_true, Bool.false_eq_true, if_false] at h
      by_cases hs : (MAX_IMAGE_SIZE < file.content.length)
      · rw [if_pos hs] at h
        exact absurd h (by simp)
      · rw [if_neg hs] at h
        simp only [Except.ok.injEq] at h
        exact h.symm
    · simp only [Bool.not_eq_true] at ht
      simp only [ht, Bool.not_false, if_true] at h
      exact absurd h (by simp)
  refine ⟨?_, ?_, ?_⟩
  · intro file freshUuid
    constructor
    · rintro ⟨url, h⟩
      unfold save_product_image at h
      by_cases ht : (ALLOWED_IMAGE_TYPES.contains file.content_type) = true
      · simp only [ht, Bool.not_true, Bool.false_eq_true, if_false] at h
        by_cases hs : (MAX_IMAGE_SIZE < file.content.length)
        · rw [if_pos hs] at h
          exact absurd h (by simp)
        · exact ⟨by simpa using ht, by omega⟩
      · simp only [Bool.not_eq_true] at ht
        simp only [ht, Bool.not_false, if_true] at h
        exact absurd h (by simp)
    · rintro ⟨htype, hsize⟩
      unfold save_product_image
      have ht : (ALLOWED_IMAGE_TYPES.contains file.content_type) = true := by
        simpa using htype
      simp only [ht, Bool.not_true, Bool.false_eq_true, if_false]
      rw [if_neg (by omega)]
      exact ⟨_, rfl⟩
  · intro file freshUuid url h
    refine ⟨_, hshape file freshUuid url h, ?_, ?_⟩
    · intro hnil
      rw [if_pos (by simp [pyLower, hnil])]
    · intro hnn
      rw [if_neg (by simpa [pyLower, List.isEmpty_iff] using hnn)]
  · intro f1 u1 url1 f2 u2 url2 h1 h2 hlen hne heq
    have e1 := hshape f1 u1 url1 h1
    have e2 := hshape f2 u2 url2 h2
    rw [e1, e2] at heq
    have := List.append_cancel_left heq
    exact hne (List.append_inj this hlen).1

/-- Witness for C9: a 3 MB JPEG is rejected, a 1 MB PNG is accepted, and two
    accepted uploads with distinct uuids get distinct URLs. -/
theorem image_upload_witness :
    (¬ ∃ url, save_product_image
        ⟨some "big.jpg".toList, "image/jpeg".toList,
         List.replicate (3 * 1024 * 1024) 0⟩ "u1".toList = .ok url)
    ∧ (∃ url, save_product_image
        ⟨some "ok.png".toList, "image/png".toList,
         List.replicate (1024 * 1024) 0⟩ "u2".toList = .ok url)
    ∧ ("/media/products/ab.png".toList : Str) ≠ "/media/products/cd.png".toList := by
  obtain ⟨hiff, -, hdist⟩ := image_upload_correct
  refine ⟨?_, ?_, ?_⟩
  · intro hurl
    have h := ((hiff _ _).mp hurl).2
    rw [List.length_replicate] at h
    revert h
    decide
  · refine (hiff _ _).mpr ⟨by decide, ?_⟩
    rw [List.length_replicate]
    decide
  · refine hdist ⟨some "a.png".toList, "image/png".toList, []⟩ "ab".toList _
      ⟨some "b.png".toList, "image/png".toList, []⟩ "cd".toList _ rfl rfl
      (by decide) (by decide)

end ECom
